import Mathlib

/-!
Shallow embedding of the Game of Life implementation in script.js
(class GameOfLife and the configuration object CONFIG), with theorems
checking the specification claims against it.

Grids are List (List Bool), mirroring the JS array of arrays; a cell read
out of bounds defaults to false, mirroring JS undefined being falsy.  The
per-cell uniform random draw of Math.random() is modelled as a rational in
[0, 1) supplied by an explicit rand source, indexed by the cell position.
-/

namespace GameOfLife

/-- The constant CONFIG.CELL_SIZE (10 pixels). -/
def CELL_SIZE : Nat := 10

/-- The constant CONFIG.INITIAL_ALIVE_PROBABILITY (0.3). -/
def INITIAL_ALIVE_PROBABILITY : ℚ := 3 / 10

/-- The CONFIG.COLORS lookup table; JS object lookup outside 0..3 yields
undefined, modelled by the empty string (the accesses in draw are clamped
with min 3, so the default branch is never reached there). -/
def COLORS : Nat → String
  | 0 => "#9be9a8"
  | 1 => "#40c463"
  | 2 => "#30a14e"
  | 3 => "#216e39"
  | _ => ""

/-- Reading grid[r][c] in JS: out-of-bounds access gives undefined, which is
falsy, so the lookup defaults to false. -/
def cellAt (grid : List (List Bool)) (r c : Nat) : Bool :=
  (grid.getD r []).getD c false

/-- The per-cell alive test performed by initGrid on one uniform draw u:
the JS expression Math.random() > CONFIG.INITIAL_ALIVE_PROBABILITY. -/
def cellAliveDraw (u : ℚ) : Bool :=
  decide (u > INITIAL_ALIVE_PROBABILITY)

/-- Array.prototype.map with element index, as used by grid.map((row, i) => ...)
and row.map((cell, j) => ...); the first argument is the index of the head. -/
def mapIdxFrom {α β : Type} (f : Nat → α → β) : Nat → List α → List β
  | _, [] => []
  | i, a :: as => f i a :: mapIdxFrom f (i + 1) as

/-- calculateGridDimensions: rows = floor(innerHeight / CELL_SIZE),
cols = floor(innerWidth / CELL_SIZE). -/
def calculateGridDimensions (innerHeight innerWidth : Nat) : Nat × Nat :=
  (innerHeight / CELL_SIZE, innerWidth / CELL_SIZE)

/-- initGrid: rows x cols grid, each cell filled from its own uniform draw by
the test Math.random() > CONFIG.INITIAL_ALIVE_PROBABILITY. -/
def initGrid (rows cols : Nat) (rand : Nat → Nat → ℚ) : List (List Bool) :=
  (List.range rows).map fun i =>
    (List.range cols).map fun j => cellAliveDraw (rand i j)

/-- The nine (i, j) offsets visited by the two nested loops of
countNeighbors, in loop order; the loop body skips (0, 0). -/
def neighborDeltas : List (Int × Int) :=
  [(-1, -1), (-1, 0), (-1, 1), (0, -1), (0, 0), (0, 1), (1, -1), (1, 0), (1, 1)]

/-- countNeighbors: accumulates over the two nested loops, skipping the
center, wrapping each index as (index + delta + dimension) % dimension and
testing the cell at the wrapped position.  The JS % coincides with the
integer emod here because every dividend that occurs is nonnegative. -/
def countNeighbors (grid : List (List Bool)) (row col : Nat) : Nat :=
  neighborDeltas.foldl
    (fun count d =>
      if d.1 = 0 ∧ d.2 = 0 then count
      else
        let rows : Int := grid.length
        let cols : Int := (grid.headD []).length
        let newRow := ((row : Int) + d.1 + rows) % rows
        let newCol := ((col : Int) + d.2 + cols) % cols
        if cellAt grid newRow.toNat newCol.toNat then count + 1 else count)
    0

/-- update: maps every cell of the snapshot grid to
neighbors === 3 || (cell && neighbors === 2), with neighbors counted in the
snapshot. -/
def update (grid : List (List Bool)) : List (List Bool) :=
  mapIdxFrom
    (fun i row =>
      mapIdxFrom
        (fun j cell =>
          let neighbors := countNeighbors grid i j
          decide (neighbors = 3) || (cell && decide (neighbors = 2)))
        0 row)
    0 grid

/-- draw, modelled by the list of cells actually painted: for every alive
cell, drawCell paints (row, col) with COLORS[min(3, neighbors)]. -/
def drawnCells (grid : List (List Bool)) : List (Nat × Nat × String) :=
  (mapIdxFrom
    (fun i row =>
      (mapIdxFrom
        (fun j cell =>
          if cell then [(i, j, COLORS (min 3 (countNeighbors grid i j)))] else [])
        0 row).flatten)
    0 grid).flatten

/-- countNeighbors with the error behaviour of JS made explicit: on an empty
grid the expression this.grid[0].length throws a TypeError (grid[0] is
undefined), modelled as none. -/
def countNeighborsE (grid : List (List Bool)) (row col : Nat) : Option Nat :=
  match grid with
  | [] => none
  | _ :: _ => some (countNeighbors grid row col)

/-- Indexed map in the Option monad: one callback per existing element, and
any error aborts the whole traversal. -/
def mapIdxFromE {α β : Type} (f : Nat → α → Option β) : Nat → List α → Option (List β)
  | _, [] => some []
  | i, a :: as => do
    let b ← f i a
    let bs ← mapIdxFromE f (i + 1) as
    pure (b :: bs)

/-- update with the error behaviour of countNeighbors made explicit: the
callback runs once per existing cell and calls countNeighborsE. -/
def updateE (grid : List (List Bool)) : Option (List (List Bool)) :=
  mapIdxFromE
    (fun i row =>
      mapIdxFromE
        (fun j cell =>
          (countNeighborsE grid i j).map fun neighbors =>
            decide (neighbors = 3) || (cell && decide (neighbors = 2)))
        0 row)
    0 grid

/-- draw with the error behaviour of countNeighbors made explicit: the
callback runs once per existing cell and calls countNeighborsE only for
alive cells. -/
def drawnCellsE (grid : List (List Bool)) : Option (List (Nat × Nat × String)) :=
  (mapIdxFromE
    (fun i row =>
      (mapIdxFromE
        (fun j cell =>
          if cell then
            (countNeighborsE grid i j).map fun n => [(i, j, COLORS (min 3 n))]
          else some [])
        0 row).map List.flatten)
    0 grid).map List.flatten

/-- The observable controller state: the isRunning flag, the grid, the
number of pending setTimeout/requestAnimationFrame callbacks, and the log of
renders performed (each entry the list of cells painted by one draw call). -/
structure GameState where
  isRunning : Bool
  grid : List (List Bool)
  scheduled : Nat
  renderLog : List (List (Nat × Nat × String))
deriving DecidableEq

/-- gameLoop: if isRunning, performs update then draw (of the updated grid)
and schedules one further tick; otherwise does nothing. -/
def gameLoop (s : GameState) : GameState :=
  if s.isRunning then
    { s with
      grid := update s.grid
      renderLog := s.renderLog ++ [drawnCells (update s.grid)]
      scheduled := s.scheduled + 1 }
  else s

/-- A pending scheduled callback fires: it is consumed, then gameLoop runs
and checks the flag before doing anything. -/
def tick (s : GameState) : GameState :=
  gameLoop { s with scheduled := s.scheduled - 1 }

/-- n pending callbacks fire in sequence. -/
def ticks : Nat → GameState → GameState
  | 0, s => s
  | n + 1, s => ticks n (tick s)

/-- toggle: flips isRunning, and if the flag is now set runs gameLoop. -/
def toggle (s : GameState) : GameState :=
  let s1 : GameState := { s with isRunning := !s.isRunning }
  if s1.isRunning then gameLoop s1 else s1

/-- reset: clears isRunning, re-initializes the grid from the current
viewport-derived dimensions via initGrid, and draws the fresh grid once. -/
def reset (s : GameState) (innerHeight innerWidth : Nat)
    (rand : Nat → Nat → ℚ) : GameState :=
  let dims := calculateGridDimensions innerHeight innerWidth
  let s1 : GameState := { s with isRunning := false, grid := initGrid dims.1 dims.2 rand }
  { s1 with renderLog := s1.renderLog ++ [drawnCells s1.grid] }

/-- A grid is rectangular when every row has the length of the first row. -/
def Rect (grid : List (List Bool)) : Prop :=
  ∀ row ∈ grid, row.length = (grid.headD []).length

/-- The new value of cell (i, j) as a function of the snapshot grid alone
(reading the current cell through cellAt instead of the map callback). -/
def nextCell (grid : List (List Bool)) (i j : Nat) : Bool :=
  decide (countNeighbors grid i j = 3) ||
    (cellAt grid i j && decide (countNeighbors grid i j = 2))

/-- An all-dead grid of the given dimensions. -/
def blankGrid (r c : Nat) : List (List Bool) :=
  List.replicate r (List.replicate c false)

/-- Imperative write of one cell; out-of-range writes are no-ops. -/
def setCell (g : List (List Bool)) (i j : Nat) (v : Bool) : List (List Bool) :=
  g.set i ((g.getD i []).set j v)

/-- A traversal implementation of the step: visit the cells in the given
order, writing each visited cell of a blank result grid with its next value
computed from the snapshot grid. -/
def updateSchedule (grid : List (List Bool)) (order : List (Nat × Nat)) :
    List (List Bool) :=
  order.foldl (fun acc p => setCell acc p.1 p.2 (nextCell grid p.1 p.2))
    (blankGrid grid.length (grid.headD []).length)

/-- Row-major traversal order of an r x c grid. -/
def cellOrderRM (r c : Nat) : List (Nat × Nat) :=
  (List.range r).flatMap fun i => (List.range c).map fun j => (i, j)

/-- Column-major traversal order of an r x c grid. -/
def cellOrderCM (r c : Nat) : List (Nat × Nat) :=
  (List.range c).flatMap fun j => (List.range r).map fun i => (i, j)

/-- The alive test countNeighbors performs for one offset d: the cell at the
wrapped position ((row + d.1 + rows) % rows, (col + d.2 + cols) % cols). -/
def wrappedNeighborAlive (grid : List (List Bool)) (row col : Nat)
    (d : Int × Int) : Bool :=
  let rows : Int := grid.length
  let cols : Int := (grid.headD []).length
  cellAt grid (((row : Int) + d.1 + rows) % rows).toNat
    (((col : Int) + d.2 + cols) % cols).toNat

theorem length_mapIdxFrom {α β : Type} (f : Nat → α → β) :
    ∀ (k : Nat) (l : List α), (mapIdxFrom f k l).length = l.length := by
  intro k l
  induction l generalizing k with
  | nil => rfl
  | cons a as ih => simp [mapIdxFrom, ih]

theorem getD_mapIdxFrom {α β : Type} (f : Nat → α → β) (d1 : α) (d2 : β) :
    ∀ (k n : Nat) (l : List α), n < l.length →
      (mapIdxFrom f k l).getD n d2 = f (k + n) (l.getD n d1) := by
  intro k n l
  induction l generalizing k n with
  | nil => intro h; simp at h
  | cons a as ih =>
    intro h
    cases n with
    | zero => simp [mapIdxFrom]
    | succ m =>
      have hm : m < as.length := by simpa using h
      simp only [mapIdxFrom, List.getD_cons_succ]
      rw [ih (k + 1) m hm]
      congr 1
      omega

theorem length_update (grid : List (List Bool)) :
    (update grid).length = grid.length :=
  length_mapIdxFrom _ 0 grid

theorem row_length_update (grid : List (List Bool)) (i : Nat)
    (hi : i < grid.length) :
    ((update grid).getD i []).length = (grid.getD i []).length := by
  rw [update, getD_mapIdxFrom _ [] [] 0 i grid hi]
  simpa using length_mapIdxFrom _ 0 (grid.getD i [])

theorem cellAt_update (grid : List (List Bool)) (i j : Nat)
    (hi : i < grid.length) (hj : j < (grid.getD i []).length) :
    cellAt (update grid) i j = nextCell grid i j := by
  rw [cellAt, update, getD_mapIdxFrom _ [] [] 0 i grid hi]
  simp only [Nat.zero_add]
  rw [getD_mapIdxFrom _ false false 0 j (grid.getD i []) hj]
  simp only [Nat.zero_add]
  rfl

theorem grid_ext {g1 g2 : List (List Bool)} (hlen : g1.length = g2.length)
    (hrow : ∀ i, i < g1.length → (g1.getD i []).length = (g2.getD i []).length)
    (hcell : ∀ i j, i < g1.length → j < (g1.getD i []).length →
      cellAt g1 i j = cellAt g2 i j) :
    g1 = g2 := by
  apply List.ext_getElem hlen
  intro n h1 h2
  have hrn := hrow n h1
  rw [List.getD_eq_getElem g1 [] h1, List.getD_eq_getElem g2 [] h2] at hrn
  apply List.ext_getElem hrn
  intro m hm1 hm2
  have hc := hcell n m h1 (by rwa [List.getD_eq_getElem g1 [] h1])
  rw [cellAt, cellAt, List.getD_eq_getElem g1 [] h1, List.getD_eq_getElem g2 [] h2,
    List.getD_eq_getElem _ _ hm1, List.getD_eq_getElem _ _ hm2] at hc
  exact hc

theorem foldl_skip_count {α : Type} (p : α → Prop) [DecidablePred p]
    (alive : α → Bool) :
    ∀ (l : List α) (a : Nat),
      l.foldl (fun c d => if p d then c else if alive d then c + 1 else c) a
        = a + (l.filter fun d => !decide (p d) && alive d).length := by
  intro l
  induction l with
  | nil => intro a; simp
  | cons x xs ih =>
    intro a
    simp only [List.foldl_cons, List.filter_cons]
    by_cases hx : p x
    · simp [hx, ih]
    · by_cases ha : alive x = true
      · simp only [hx, if_false, ha, if_true, ih]
        simp [hx, ha]
        omega
      · simp only [hx, if_false, Bool.not_eq_true] at ha ⊢
        simp [ha, ih, hx]

theorem countNeighbors_eq_countP (grid : List (List Bool)) (row col : Nat) :
    countNeighbors grid row col =
      (neighborDeltas.filter fun d => !decide (d.1 = 0 ∧ d.2 = 0)).countP
        (wrappedNeighborAlive grid row col) := by
  have h := foldl_skip_count (fun d : Int × Int => d.1 = 0 ∧ d.2 = 0)
    (wrappedNeighborAlive grid row col) neighborDeltas 0
  have h2 : countNeighbors grid row col =
      neighborDeltas.foldl
        (fun c d => if d.1 = 0 ∧ d.2 = 0 then c
          else if wrappedNeighborAlive grid row col d then c + 1 else c) 0 := rfl
  rw [h2, h, Nat.zero_add]
  rw [List.countP_filter]
  rw [← List.countP_eq_length_filter]
  apply List.countP_congr
  intro d _
  rw [Bool.and_comm]

/-- C7: on positive-dimension grids, countNeighbors returns a count between
0 and 8 (Nat, so nonnegative), equal to the number of live cells among
exactly the 8 non-center offsets, each examined at the wrapped position
(index + delta + dimension) % dimension. -/
theorem C7_neighbor_count_bounds (grid : List (List Bool)) (row col : Nat)
    (hr : 0 < grid.length) (hc : 0 < (grid.headD []).length) :
    countNeighbors grid row col ≤ 8 ∧
    (neighborDeltas.filter fun d => !decide (d.1 = 0 ∧ d.2 = 0)).length = 8 ∧
    countNeighbors grid row col =
      (neighborDeltas.filter fun d => !decide (d.1 = 0 ∧ d.2 = 0)).countP
        (wrappedNeighborAlive grid row col) := by
  have _ := hr
  have _ := hc
  refine ⟨?_, by decide, countNeighbors_eq_countP grid row col⟩
  calc countNeighbors grid row col
      = (neighborDeltas.filter fun d => !decide (d.1 = 0 ∧ d.2 = 0)).countP
          (wrappedNeighborAlive grid row col) := countNeighbors_eq_countP grid row col
    _ ≤ (neighborDeltas.filter fun d => !decide (d.1 = 0 ∧ d.2 = 0)).length :=
        List.countP_le_length _
    _ = 8 := by decide

/-- Witness for C7 on a concrete 2x2 grid. -/
theorem C7_neighbor_count_bounds_witness :
    countNeighbors [[true, true], [true, false]] 0 0 ≤ 8 :=
  (C7_neighbor_count_bounds [[true, true], [true, false]] 0 0
    (by decide) (by decide)).1

/-- C8: on the 3x3 grid whose only alive cell is (0, 0), countNeighbors at
(2, 2) returns exactly 1, because toroidal wraparound makes (0, 0) a
diagonal neighbor of (2, 2). -/
theorem C8_toroidal_wrap_example :
    countNeighbors [[true, false, false], [false, false, false], [false, false, false]] 2 2
      = 1 := by
  decide

/-- C2: for every cell of every grid, the cell is alive after one update
exactly when its live-neighbor count n in the prior grid is 3, or the cell
was alive and n is 2 (Conway B3/S23). -/
theorem C2_conway_step_rule (grid : List (List Bool)) (i j : Nat)
    (hi : i < grid.length) (hj : j < (grid.getD i []).length) :
    cellAt (update grid) i j = true ↔
      countNeighbors grid i j = 3 ∨
        (cellAt grid i j = true ∧ countNeighbors grid i j = 2) := by
  rw [cellAt_update grid i j hi hj, nextCell]
  simp [Bool.or_eq_true, Bool.and_eq_true, decide_eq_true_iff]

/-- Witness for C2 at a concrete grid: on a vertical blinker, the dead cell
(1, 0) has exactly three live neighbors and is born. -/
theorem C2_conway_step_rule_witness :
    cellAt (update [[false, true, false], [false, true, false], [false, true, false]]) 1 0
      = true :=
  (C2_conway_step_rule
    [[false, true, false], [false, true, false], [false, true, false]] 1 0
    (by decide) (by decide)).mpr (Or.inl (by decide))

theorem getD_set {α : Type} (l : List α) (i : Nat) (a : α) (n : Nat) (d : α) :
    (l.set i a).getD n d = if i = n ∧ n < l.length then a else l.getD n d := by
  by_cases hn : n < l.length
  · rw [List.getD_eq_getElem _ _ (by rwa [List.length_set]),
      List.getElem_set, List.getD_eq_getElem _ _ hn]
    by_cases hin : i = n
    · simp [hin, hn]
    · simp [hin, hn]
  · have h1 : l.length ≤ n := Nat.le_of_not_lt hn
    rw [List.getD_eq_default _ _ (by rwa [List.length_set]),
      List.getD_eq_default _ _ h1]
    simp [hn]

theorem length_setCell (g : List (List Bool)) (i j : Nat) (v : Bool) :
    (setCell g i j v).length = g.length := by
  rw [setCell, List.length_set]

theorem row_length_setCell (g : List (List Bool)) (i j : Nat) (v : Bool)
    (n : Nat) :
    ((setCell g i j v).getD n []).length = (g.getD n []).length := by
  rw [setCell, getD_set]
  by_cases h : i = n ∧ n < g.length
  · rw [if_pos h, List.length_set, h.1]
  · rw [if_neg h]

theorem cellAt_setCell_same (g : List (List Bool)) (i j : Nat) (v : Bool)
    (hi : i < g.length) (hj : j < (g.getD i []).length) :
    cellAt (setCell g i j v) i j = v := by
  rw [cellAt, setCell, getD_set, if_pos ⟨rfl, hi⟩, getD_set, if_pos ⟨rfl, hj⟩]

theorem cellAt_setCell_other (g : List (List Bool)) (i j : Nat) (v : Bool)
    (a b : Nat) (hne : ¬(i = a ∧ j = b)) :
    cellAt (setCell g i j v) a b = cellAt g a b := by
  rw [cellAt, cellAt, setCell, getD_set]
  by_cases hia : i = a ∧ a < g.length
  · obtain ⟨rfl, ha⟩ := hia
    have hjb : ¬ j = b := fun h => hne ⟨rfl, h⟩
    rw [if_pos ⟨rfl, ha⟩, getD_set, if_neg (fun h => hjb h.1)]
  · rw [if_neg hia]

theorem foldl_setCell_length (grid : List (List Bool)) :
    ∀ (order : List (Nat × Nat)) (acc : List (List Bool)),
      (order.foldl (fun a2 p => setCell a2 p.1 p.2 (nextCell grid p.1 p.2)) acc).length
        = acc.length := by
  intro order
  induction order with
  | nil => intro acc; rfl
  | cons q qs ih =>
    intro acc
    simp only [List.foldl_cons]
    rw [ih, length_setCell]

theorem foldl_setCell_row_length (grid : List (List Bool)) :
    ∀ (order : List (Nat × Nat)) (acc : List (List Bool)) (n : Nat),
      ((order.foldl (fun a2 p => setCell a2 p.1 p.2 (nextCell grid p.1 p.2)) acc).getD n []).length
        = ((acc.getD n []).length) := by
  intro order
  induction order with
  | nil => intro acc n; rfl
  | cons q qs ih =>
    intro acc n
    simp only [List.foldl_cons]
    rw [ih, row_length_setCell]

theorem foldl_setCell_cellAt (grid : List (List Bool)) (r c : Nat) :
    ∀ (order : List (Nat × Nat)) (acc : List (List Bool)),
      acc.length = r →
      (∀ n, n < r → (acc.getD n []).length = c) →
      (∀ p ∈ order, p.1 < r ∧ p.2 < c) →
      ∀ i j, i < r → j < c →
        cellAt (order.foldl (fun a2 p => setCell a2 p.1 p.2 (nextCell grid p.1 p.2)) acc) i j
          = if (i, j) ∈ order then nextCell grid i j else cellAt acc i j := by
  intro order
  induction order with
  | nil =>
    intro acc _ _ _ i j _ _
    simp
  | cons q qs ih =>
    intro acc hlen hrow hord i j hi hj
    simp only [List.foldl_cons]
    have hq := hord q (List.mem_cons_self q qs)
    have hlen2 : (setCell acc q.1 q.2 (nextCell grid q.1 q.2)).length = r := by
      rw [length_setCell]; exact hlen
    have hrow2 : ∀ n, n < r →
        ((setCell acc q.1 q.2 (nextCell grid q.1 q.2)).getD n []).length = c := by
      intro n hn
      rw [row_length_setCell]
      exact hrow n hn
    rw [ih _ hlen2 hrow2 (fun p hp => hord p (List.mem_cons_of_mem _ hp)) i j hi hj]
    by_cases hmem : (i, j) ∈ qs
    · rw [if_pos hmem, if_pos (List.mem_cons_of_mem _ hmem)]
    · by_cases hqij : q = (i, j)
      · rw [if_neg hmem]
        have h1 : q.1 = i := by rw [hqij]
        have h2 : q.2 = j := by rw [hqij]
        subst h1
        subst h2
        rw [cellAt_setCell_same acc q.1 q.2 _ (hlen ▸ hq.1)
          (by rw [hrow q.1 hq.1]; exact hq.2)]
        rw [if_pos (hqij ▸ List.mem_cons_self q qs)]
      · rw [if_neg hmem]
        have hne : ¬(q.1 = i ∧ q.2 = j) := by
          intro h
          exact hqij (Prod.ext h.1 h.2)
        rw [cellAt_setCell_other acc q.1 q.2 _ i j hne]
        rw [if_neg]
        intro h
        rcases List.mem_cons.mp h with h1 | h1
        · exact hqij h1.symm
        · exact hmem h1

theorem length_blankGrid (r c : Nat) : (blankGrid r c).length = r := by
  rw [blankGrid, List.length_replicate]

theorem row_length_blankGrid (r c n : Nat) (hn : n < r) :
    ((blankGrid r c).getD n []).length = c := by
  rw [blankGrid, List.getD_eq_getElem _ _ (by simpa using hn),
    List.getElem_replicate, List.length_replicate]

theorem updateSchedule_eq_update (grid : List (List Bool)) (hrect : Rect grid)
    (order : List (Nat × Nat))
    (hmem : ∀ p : Nat × Nat,
      p ∈ order ↔ p.1 < grid.length ∧ p.2 < (grid.headD []).length) :
    updateSchedule grid order = update grid := by
  have hrowc : ∀ i, i < grid.length →
      (grid.getD i []).length = (grid.headD []).length := by
    intro i hi
    rw [List.getD_eq_getElem _ _ hi]
    exact hrect _ (List.getElem_mem hi)
  have hslen : (updateSchedule grid order).length = grid.length := by
    rw [updateSchedule, foldl_setCell_length, length_blankGrid]
  have hsrow : ∀ i, i < grid.length →
      ((updateSchedule grid order).getD i []).length = (grid.headD []).length := by
    intro i hi
    rw [updateSchedule, foldl_setCell_row_length, row_length_blankGrid _ _ _ hi]
  apply grid_ext
  · rw [hslen, length_update]
  · intro i hi
    rw [hslen] at hi
    rw [hsrow i hi, row_length_update grid i hi, hrowc i hi]
  · intro i j hi hj
    rw [hslen] at hi
    rw [hsrow i hi] at hj
    rw [updateSchedule, foldl_setCell_cellAt grid grid.length (grid.headD []).length
      order (blankGrid grid.length (grid.headD []).length) (length_blankGrid _ _)
      (fun n hn => row_length_blankGrid _ _ n hn)
      (fun p hp => (hmem p).mp hp) i j hi hj]
    rw [if_pos ((hmem (i, j)).mpr ⟨hi, hj⟩)]
    rw [cellAt_update grid i j hi (by rw [hrowc i hi]; exact hj)]

theorem mem_cellOrderRM (r c : Nat) (p : Nat × Nat) :
    p ∈ cellOrderRM r c ↔ p.1 < r ∧ p.2 < c := by
  cases p with
  | mk a b =>
    simp [cellOrderRM, List.mem_flatMap, List.mem_map, List.mem_range]

theorem mem_cellOrderCM (r c : Nat) (p : Nat × Nat) :
    p ∈ cellOrderCM r c ↔ p.1 < r ∧ p.2 < c := by
  cases p with
  | mk a b =>
    simp [cellOrderCM, List.mem_flatMap, List.mem_map, List.mem_range]
    constructor
    · rintro ⟨j, hj, i, hi, h1, h2⟩
      exact ⟨h1 ▸ hi, h2 ▸ hj⟩
    · rintro ⟨ha, hb⟩
      exact ⟨b, hb, a, ha, rfl, rfl⟩

/-- C3: on a rectangular grid the step is a pure function of the prior
snapshot, so a traversal implementation that visits and writes the cells in
row-major order, in column-major order, or in any order that covers exactly
the cells of the grid, yields the very grid computed by update. -/
theorem C3_traversal_order_independent (grid : List (List Bool))
    (hrect : Rect grid) :
    updateSchedule grid (cellOrderRM grid.length (grid.headD []).length)
        = update grid ∧
    updateSchedule grid (cellOrderCM grid.length (grid.headD []).length)
        = update grid ∧
    ∀ order : List (Nat × Nat),
      (∀ p : Nat × Nat,
        p ∈ order ↔ p.1 < grid.length ∧ p.2 < (grid.headD []).length) →
      updateSchedule grid order = update grid := by
  refine ⟨?_, ?_, fun order hmem => updateSchedule_eq_update grid hrect order hmem⟩
  · exact updateSchedule_eq_update grid hrect _ (fun p => mem_cellOrderRM _ _ p)
  · exact updateSchedule_eq_update grid hrect _ (fun p => mem_cellOrderCM _ _ p)

/-- Witness for C3: the column-major traversal of a concrete 2x2 grid agrees
with update. -/
theorem C3_traversal_order_independent_witness :
    updateSchedule [[true, false], [false, true]] (cellOrderCM 2 2)
      = update [[true, false], [false, true]] :=
  (C3_traversal_order_independent [[true, false], [false, true]]
    (by intro row hrow; fin_cases hrow <;> rfl)).2.1

theorem tick_stopped (t : GameState) (h : t.isRunning = false) :
    tick t = { t with scheduled := t.scheduled - 1 } := by
  rw [tick, gameLoop]
  simp [h]

theorem ticks_stopped (n : Nat) : ∀ (t : GameState), t.isRunning = false →
    ticks n t = { t with scheduled := t.scheduled - n } := by
  induction n with
  | zero =>
    intro t h
    simp [ticks]
  | succ m ih =>
    intro t h
    rw [ticks, tick_stopped t h, ih _ (by simp [h])]
    have harith : t.scheduled - 1 - m = t.scheduled - (m + 1) := by omega
    simp [harith]

theorem toggle_of_running (s : GameState) (h : s.isRunning = true) :
    toggle s = { s with isRunning := false } := by
  simp [toggle, h, gameLoop]

/-- C5: once the running controller has been stopped (the only stop in the
code is toggle from the Running state), every pending scheduled tick
observes the cleared flag and performs no step, no render and no reschedule:
along any trace of pending ticks the grid and the render log never change,
the flag stays down, and the number of pending callbacks only decreases. -/
theorem C5_stop_halts (s : GameState) (hrun : s.isRunning = true) :
    (toggle s).isRunning = false ∧
    ∀ n : Nat,
      (ticks n (toggle s)).grid = s.grid ∧
      (ticks n (toggle s)).renderLog = s.renderLog ∧
      (ticks n (toggle s)).isRunning = false ∧
      (ticks n (toggle s)).scheduled = s.scheduled - n := by
  rw [toggle_of_running s hrun]
  refine ⟨rfl, fun n => ?_⟩
  rw [ticks_stopped n _ rfl]
  exact ⟨rfl, rfl, rfl, rfl⟩

/-- Witness for C5: stopping a concrete running controller with one pending
tick, then letting two ticks fire, leaves the grid untouched. -/
theorem C5_stop_halts_witness :
    (toggle { isRunning := true, grid := [[true]], scheduled := 1, renderLog := [] }).isRunning
      = false ∧
    (ticks 2 (toggle { isRunning := true, grid := [[true]], scheduled := 1, renderLog := [] })).grid
      = [[true]] :=
  ⟨(C5_stop_halts { isRunning := true, grid := [[true]], scheduled := 1, renderLog := [] } rfl).1,
   ((C5_stop_halts { isRunning := true, grid := [[true]], scheduled := 1, renderLog := [] } rfl).2 2).1⟩

/-- Counterexample to C4: the code exposes no idempotent start or stop; its
single control is toggle, and invoking it on a Running controller is not a
no-op (it flips the flag to Stopped). -/
theorem C4_start_stop_counterexample :
    toggle { isRunning := true, grid := [[true]], scheduled := 1, renderLog := [] } ≠
      { isRunning := true, grid := [[true]], scheduled := 1, renderLog := [] } := by
  intro h
  have h2 := congrArg GameState.isRunning h
  simp [toggle, gameLoop] at h2

/-- C4 as amended: the controller exposes a single toggle rather than
idempotent start and stop.  Toggling a Running controller yields a Stopped
one with grid, render log and pending schedule unchanged; toggling a
Stopped controller yields a Running one that performs one update, one
render, and schedules exactly one tick.  Neither invocation is a no-op. -/
theorem C4_toggle_behaviour (s : GameState) :
    (s.isRunning = true → toggle s = { s with isRunning := false }) ∧
    (s.isRunning = false →
      (toggle s).isRunning = true ∧
      (toggle s).grid = update s.grid ∧
      (toggle s).renderLog = s.renderLog ++ [drawnCells (update s.grid)] ∧
      (toggle s).scheduled = s.scheduled + 1) := by
  constructor
  · intro h
    exact toggle_of_running s h
  · intro h
    simp [toggle, h, gameLoop]

/-- Witness for the amended C4 at two concrete controller states. -/
theorem C4_toggle_behaviour_witness :
    toggle { isRunning := true, grid := [], scheduled := 0, renderLog := [] }
      = { isRunning := false, grid := [], scheduled := 0, renderLog := [] } ∧
    (toggle { isRunning := false, grid := [], scheduled := 0, renderLog := [] }).isRunning
      = true :=
  ⟨(C4_toggle_behaviour { isRunning := true, grid := [], scheduled := 0, renderLog := [] }).1 rfl,
   ((C4_toggle_behaviour { isRunning := false, grid := [], scheduled := 0, renderLog := [] }).2 rfl).1⟩

theorem length_initGrid (rows cols : Nat) (rand : Nat → Nat → ℚ) :
    (initGrid rows cols rand).length = rows := by
  simp [initGrid]

theorem row_length_initGrid (rows cols : Nat) (rand : Nat → Nat → ℚ) :
    ∀ row ∈ initGrid rows cols rand, row.length = cols := by
  intro row hrow
  simp only [initGrid, List.mem_map, List.mem_range] at hrow
  obtain ⟨i, hi, rfl⟩ := hrow
  simp

theorem reset_fields (s : GameState) (innerH innerW : Nat)
    (rand : Nat → Nat → ℚ) :
    reset s innerH innerW rand =
      { isRunning := false
        grid := initGrid (innerH / CELL_SIZE) (innerW / CELL_SIZE) rand
        scheduled := s.scheduled
        renderLog := s.renderLog
          ++ [drawnCells (initGrid (innerH / CELL_SIZE) (innerW / CELL_SIZE) rand)] } := by
  rfl

/-- C6: after reset the controller is Stopped, the grid is freshly
initialized with rows = floor(innerHeight / CELL_SIZE) and
cols = floor(innerWidth / CELL_SIZE) from the configured alive test, the
render log has grown by exactly one render of the fresh grid, and nothing
auto-resumed: the flag is down and no tick was scheduled. -/
theorem C6_reset_postcondition (s : GameState) (innerH innerW : Nat)
    (rand : Nat → Nat → ℚ) :
    (reset s innerH innerW rand).isRunning = false ∧
    (reset s innerH innerW rand).grid
      = initGrid (innerH / CELL_SIZE) (innerW / CELL_SIZE) rand ∧
    (reset s innerH innerW rand).grid.length = innerH / CELL_SIZE ∧
    (∀ row ∈ (reset s innerH innerW rand).grid,
      row.length = innerW / CELL_SIZE) ∧
    (reset s innerH innerW rand).renderLog
      = s.renderLog
        ++ [drawnCells (initGrid (innerH / CELL_SIZE) (innerW / CELL_SIZE) rand)] ∧
    (reset s innerH innerW rand).scheduled = s.scheduled := by
  rw [reset_fields]
  refine ⟨rfl, rfl, length_initGrid _ _ _, ?_, rfl, rfl⟩
  exact row_length_initGrid _ _ _

/-- Witness for C6 on a concrete controller and a 25 x 17 pixel viewport. -/
theorem C6_reset_postcondition_witness :
    (reset { isRunning := true, grid := [], scheduled := 0, renderLog := [] }
      25 17 (fun _ _ => 0)).isRunning = false ∧
    ((reset { isRunning := true, grid := [], scheduled := 0, renderLog := [] }
      25 17 (fun _ _ => 0)).grid.getD 0 []).length = 17 / CELL_SIZE := by
  have h := C6_reset_postcondition
    { isRunning := true, grid := [], scheduled := 0, renderLog := [] }
    25 17 (fun _ _ => 0)
  refine ⟨h.1, ?_⟩
  have hlen : 0 < (reset { isRunning := true, grid := [], scheduled := 0, renderLog := [] }
      25 17 (fun _ _ => 0)).grid.length := by
    rw [h.2.2.1]
    norm_num [CELL_SIZE]
  apply h.2.2.2.1
  rw [List.getD_eq_getElem _ _ hlen]
  exact List.getElem_mem hlen

theorem mapIdxFromE_eq_some {α β : Type} (f : Nat → α → Option β)
    (g : Nat → α → β) (hfg : ∀ i a, f i a = some (g i a)) :
    ∀ (k : Nat) (l : List α), mapIdxFromE f k l = some (mapIdxFrom g k l) := by
  intro k l
  induction l generalizing k with
  | nil => rfl
  | cons a as ih =>
    simp [mapIdxFromE, mapIdxFrom, hfg, ih]

theorem updateE_eq_some (grid : List (List Bool)) :
    updateE grid = some (update grid) := by
  cases grid with
  | nil => rfl
  | cons r rs =>
    apply mapIdxFromE_eq_some
    intro i row
    apply mapIdxFromE_eq_some
    intro j cell
    rfl

theorem drawnCellsE_eq_some (grid : List (List Bool)) :
    drawnCellsE grid = some (drawnCells grid) := by
  cases grid with
  | nil => rfl
  | cons r rs =>
    rw [drawnCellsE, drawnCells]
    rw [mapIdxFromE_eq_some _
      (fun i row =>
        (mapIdxFrom
          (fun j cell =>
            if cell then [(i, j, COLORS (min 3 (countNeighbors (r :: rs) i j)))] else [])
          0 row).flatten) _ 0 (r :: rs)]
    · rfl
    · intro i row
      rw [mapIdxFromE_eq_some _
        (fun j cell =>
          if cell then [(i, j, COLORS (min 3 (countNeighbors (r :: rs) i j)))] else [])
        _ 0 row]
      · rfl
      · intro j cell
        cases cell <;> rfl

/-- C10: when the viewport is smaller than one cell the derived row count is
zero and reset installs the empty grid; initialization with zero rows gives
the empty grid; update and draw on the empty grid return an empty result
while executing no per-cell callback, so the countNeighbors call whose
grid[0].length access would fail on the empty grid (countNeighborsE gives
none there) is never invoked: the error-aware updateE and drawnCellsE
succeed on every grid, agreeing with the total functions. -/
theorem C10_empty_grid_safe :
    (∀ (s : GameState) (innerH innerW : Nat) (rand : Nat → Nat → ℚ),
      innerH < CELL_SIZE → (reset s innerH innerW rand).grid = []) ∧
    (∀ (cols : Nat) (rand : Nat → Nat → ℚ), initGrid 0 cols rand = []) ∧
    update ([] : List (List Bool)) = [] ∧
    drawnCells [] = [] ∧
    countNeighborsE [] 0 0 = none ∧
    (∀ grid, updateE grid = some (update grid)) ∧
    (∀ grid, drawnCellsE grid = some (drawnCells grid)) := by
  refine ⟨?_, fun cols rand => rfl, rfl, rfl, rfl, updateE_eq_some, drawnCellsE_eq_some⟩
  intro s innerH innerW rand h
  rw [reset_fields]
  have h0 : innerH / CELL_SIZE = 0 := Nat.div_eq_of_lt h
  simp [h0, initGrid]

/-- Witness for C10: a 5 pixel tall viewport yields the empty grid. -/
theorem C10_empty_grid_safe_witness :
    (reset { isRunning := false, grid := [[true]], scheduled := 0, renderLog := [] }
      5 42 (fun _ _ => 0)).grid = [] :=
  C10_empty_grid_safe.1
    { isRunning := false, grid := [[true]], scheduled := 0, renderLog := [] }
    5 42 (fun _ _ => 0) (by decide)

/-- C1 (code bug): the initGrid cell test Math.random() > 0.3 marks a cell
alive on the draw 1/2, and over the uniform range [0, 1) the alive draws
form the interval (0.3, 1), whose measure 1 - 0.3 = 0.7 differs from the
configured INITIAL_ALIVE_PROBABILITY = 0.3 that the CONFIG documentation
calls the probability of a cell being alive. -/
theorem C1_alive_probability_bug :
    initGrid 1 1 (fun _ _ => 1 / 2) = [[true]] ∧
    {u : ℚ | cellAliveDraw u = true} ∩ Set.Ico (0 : ℚ) 1
      = Set.Ioo INITIAL_ALIVE_PROBABILITY 1 ∧
    (1 : ℚ) - INITIAL_ALIVE_PROBABILITY ≠ INITIAL_ALIVE_PROBABILITY := by
  refine ⟨?_, ?_, ?_⟩
  · simp [initGrid, List.range_succ, cellAliveDraw, INITIAL_ALIVE_PROBABILITY]
    norm_num
  · ext u
    simp only [Set.mem_inter_iff, Set.mem_setOf_eq, Set.mem_Ico, Set.mem_Ioo,
      cellAliveDraw, gt_iff_lt, decide_eq_true_eq, INITIAL_ALIVE_PROBABILITY]
    constructor
    · rintro ⟨h1, _, h3⟩
      exact ⟨h1, h3⟩
    · rintro ⟨h1, h2⟩
      refine ⟨h1, ?_, h2⟩
      linarith
  · norm_num [INITIAL_ALIVE_PROBABILITY]

/-- C9: every grid-producing operation (initialization, step, reset, and
resize, which re-runs initGrid) yields a rectangular grid whose rows all
have the same length, and the step preserves both the row count and every
row length of its input. -/
theorem C9_rectangular_shapes :
    (∀ (rows cols : Nat) (rand : Nat → Nat → ℚ),
      (initGrid rows cols rand).length = rows ∧
      ∀ row ∈ initGrid rows cols rand, row.length = cols) ∧
    (∀ grid : List (List Bool),
      (update grid).length = grid.length ∧
      ∀ i, i < grid.length →
        ((update grid).getD i []).length = (grid.getD i []).length) ∧
    (∀ (s : GameState) (innerH innerW : Nat) (rand : Nat → Nat → ℚ),
      (reset s innerH innerW rand).grid.length = innerH / CELL_SIZE ∧
      ∀ row ∈ (reset s innerH innerW rand).grid,
        row.length = innerW / CELL_SIZE) := by
  refine ⟨fun rows cols rand => ⟨length_initGrid rows cols rand, row_length_initGrid rows cols rand⟩,
    fun grid => ⟨length_update grid, fun i hi => row_length_update grid i hi⟩,
    fun s innerH innerW rand => ?_⟩
  rw [reset_fields]
  exact ⟨length_initGrid _ _ _, row_length_initGrid _ _ _⟩

/-- Witness for C9: the updated row of a concrete 1 x 2 grid keeps length 2. -/
theorem C9_rectangular_shapes_witness :
    ((update [[true, false]]).getD 0 []).length = 2 := by
  have h := (C9_rectangular_shapes.2.1 [[true, false]]).2 0 (by norm_num)
  simpa using h

end GameOfLife
